import Mathlib

/-!
Verification of the runtime orchestration core of the AutoNav traffic demo
(src/traffic.py) against its natural-language specification.

The Python source is shallowly embedded below: module-level configuration
constants become Lean constants, the camera-callback sampling logic, the
telemetry ring (a `collections.deque` with `maxlen`), the watchdog
comparison, the control-loop tick structure, the jaywalker staging /
trigger state machine and the shutdown cleanup sequence become executable
Lean functions on explicit state.  Wall-clock instants are modelled as
rationals.
-/

namespace AutoNav

/-! ## Configuration constants (src/traffic.py lines 27-49) -/

/-- Image saving frequency in frames: `CAM_SAVE_EVERY_N = 60`. -/
def CAM_SAVE_EVERY_N : Nat := 60

/-- Maximum number of concurrently tracked crossing walkers: `MAX_CROSSERS = 2`. -/
def MAX_CROSSERS : Nat := 2

/-- Watchdog threshold in seconds: `NO_FRAME_TIMEOUT = 10.0`. -/
def NO_FRAME_TIMEOUT : ℚ := 10

/-- Telemetry ring capacity: `MAX_TELEMETRY_ROWS = 20000`. -/
def MAX_TELEMETRY_ROWS : Nat := 20000

/-- Output directory `OUT_DIR = "carla_dataset"`. -/
def OUT_DIR : String := "carla_dataset"

/-- Directory of the front camera stream: `os.path.join(OUT_DIR, "front_camera")`. -/
def FRONT_DIR : String := OUT_DIR ++ "/front_camera"

/-- Directory of the third-person camera stream. -/
def THIRD_DIR : String := OUT_DIR ++ "/third_person_camera"

/-! ## Camera callback and frame-persistence sampling
(src/traffic.py lines 88-109, `make_camera_callback`). -/

/-- Zero-pad the decimal representation of `n` to at least `w` digits, as the
Python format `f"{n:06d}"` does for `w = 6`. -/
def zeroPad (w : Nat) (n : Nat) : String :=
  let s := toString n
  ⟨List.replicate (w - s.length) (Char.ofNat 48)⟩ ++ s

/-- Destination path of a sampled frame: `os.path.join(target, f"{image.frame:06d}.png")`. -/
def framePath (targetDir : String) (frame : Nat) : String :=
  targetDir ++ "/" ++ zeroPad 6 frame ++ ".png"

/-- Sampling predicate of the camera callback (src/traffic.py line 103):
`CAM_SAVE_EVERY_N > 0 and (image.frame % CAM_SAVE_EVERY_N == 0)`,
with the current value of the global `CAM_SAVE_EVERY_N` passed as `n`. -/
def shouldEnqueue (n : Nat) (frame : Nat) : Bool :=
  decide (0 < n) && decide (frame % n = 0)

/-- Effective value of the global `CAM_SAVE_EVERY_N` after argument parsing:
`if args.no_save: CAM_SAVE_EVERY_N = 0` (src/traffic.py lines 134-135). -/
def effectiveSaveEveryN (noSave : Bool) : Nat :=
  if noSave then 0 else CAM_SAVE_EVERY_N

/-- A task on the background persistence queue: destination path plus the frame
sequence number of the image to write (`save_queue.put((path, image))`). -/
structure PersistTask where
  path : String
  frame : Nat
deriving DecidableEq, Repr

/-- Shared state touched by a camera callback: the watchdog timestamp
`_last_frame_time`, the counter `_frame_counter`, and the persistence queue
`save_queue` (modelled as the list of tasks enqueued so far, oldest first). -/
structure CamState where
  lastFrameTime : ℚ
  frameCounter : Nat
  saveQueue : List PersistTask
deriving DecidableEq, Repr

/-- Camera callback produced by `make_camera_callback store_name`
(src/traffic.py lines 90-108) on its happy path: record the arrival time,
bump the frame counter, store the decoded surface (not modelled: the
`FrameBuffer` contents do not matter to any claim), and enqueue one
persistence task exactly when the sampling predicate holds.  `front` tells
the two stream directories apart; `n` is the global `CAM_SAVE_EVERY_N`. -/
def cameraCallback (n : Nat) (front : Bool) (now : ℚ) (frame : Nat)
    (st : CamState) : CamState :=
  let st1 : CamState :=
    { st with lastFrameTime := now, frameCounter := st.frameCounter + 1 }
  if shouldEnqueue n frame then
    let target := if front then FRONT_DIR else THIRD_DIR
    { st1 with saveQueue := st1.saveQueue ++ [⟨framePath target frame, frame⟩] }
  else st1

/-! ## Telemetry ring (`deque(maxlen=MAX_TELEMETRY_ROWS)`, src/traffic.py line 192) -/

/-- One telemetry row: `[snap.frame, snap.timestamp.elapsed_seconds, speed_kmh,
ctrl.steer, ctrl.throttle, ctrl.brake, ego_location.x, ego_location.y,
ego_location.z]` (src/traffic.py lines 328-330).  `speed_kmh` is the scalar
`3.6 * (vel.x**2 + vel.y**2 + vel.z**2)**0.5` computed by the source; it is
carried here as an already-computed rational since the square root plays no
role in any claim. -/
structure TelemetryRecord where
  frame : Nat
  time_s : ℚ
  speed_kmh : ℚ
  steer : ℚ
  throttle : ℚ
  brake : ℚ
  x : ℚ
  y : ℚ
  z : ℚ
deriving DecidableEq, Repr

/-- Append to a `collections.deque` with `maxlen = cap`: the new element goes
to the right and, if the deque would exceed `cap` elements, the leftmost
(oldest) elements are discarded. -/
def ringAppend (cap : Nat) (xs : List TelemetryRecord) (x : TelemetryRecord) :
    List TelemetryRecord :=
  let ys := xs ++ [x]
  if cap < ys.length then ys.drop (ys.length - cap) else ys

/-- A sequence of appends into the telemetry ring, oldest first. -/
def ringAppendAll (cap : Nat) (xs : List TelemetryRecord)
    (l : List TelemetryRecord) : List TelemetryRecord :=
  l.foldl (ringAppend cap) xs

/-! ## Control-loop tick (src/traffic.py lines 298-420)

Per tick the source: processes pygame events (a QUIT event or ESC key sets
`running = False`, checked at the top of the next iteration), polls
`world.get_snapshot()` (a failure is caught and leaves `snap = None`), on
`snap is None` sleeps 0.05 s and `continue`s, otherwise compares
`time.time() - _last_frame_time` against `NO_FRAME_TIMEOUT` and `break`s on
stall, then runs the telemetry block, the walker staging/trigger steps and
the renderer. -/

/-- World snapshot as used by the loop: `snap.frame` and
`snap.timestamp.elapsed_seconds`. -/
structure Snapshot where
  frame : Nat
  elapsed_seconds : ℚ
deriving DecidableEq, Repr

/-- Ego readings gathered by the telemetry block (src/traffic.py lines 322-326):
transform location, control inputs, and the derived speed scalar. -/
structure EgoSample where
  x : ℚ
  y : ℚ
  z : ℚ
  speed_kmh : ℚ
  steer : ℚ
  throttle : ℚ
  brake : ℚ
deriving DecidableEq, Repr

/-- The telemetry row the source builds on line 328-330 from a snapshot and
the ego readings. -/
def mkTelemetryRecord (snap : Snapshot) (ego : EgoSample) : TelemetryRecord :=
  ⟨snap.frame, snap.elapsed_seconds, ego.speed_kmh,
   ego.steer, ego.throttle, ego.brake, ego.x, ego.y, ego.z⟩

/-- Python semantics of src/traffic.py line 327,
`telemetry.append = telemetry.append if isinstance(telemetry, deque) else None`:
`telemetry` is an instance of the built-in C type `collections.deque`, whose
instances have no `__dict__` and reject attribute assignment, so the
statement raises `AttributeError` regardless of the value of the right-hand
side.  The constant records this semantic fact of the embedded runtime. -/
def dequeAttrAssignRaises : Bool := true

/-- The telemetry block of one tick (src/traffic.py lines 321-332): a `try`
block that reads the ego transform/velocity/control (`egoOk` models those
calls succeeding), executes line 327, then would append the row built by
`mkTelemetryRecord`; any exception is swallowed by `except Exception: pass`,
abandoning the rest of the block.  Because line 327 raises, the append on
line 328 is unreachable whenever line 327 is reached. -/
def telemetryTickBlock (egoOk : Bool) (snap : Snapshot) (ego : EgoSample)
    (ring : List TelemetryRecord) : List TelemetryRecord :=
  if egoOk then
    if dequeAttrAssignRaises then ring
    else ringAppend MAX_TELEMETRY_ROWS ring (mkTelemetryRecord snap ego)
  else ring

/-- Watchdog comparison (src/traffic.py line 316):
`time.time() - _last_frame_time > NO_FRAME_TIMEOUT`. -/
def checkStalled (now lastFrame threshold : ℚ) : Bool :=
  decide (threshold < now - lastFrame)

/-- Why the main loop stopped iterating. -/
inductive ExitReason
  | userQuit
  | watchdogStall
deriving DecidableEq, Repr

/-- External inputs of one tick: whether a QUIT/ESC event arrived, the result
of the snapshot poll (`none` when `get_snapshot()` failed), the wall clock at
the watchdog comparison, and whether the ego queries of the telemetry block
succeed together with their values. -/
structure TickInput where
  quit : Bool
  snap : Option Snapshot
  now : ℚ
  egoOk : Bool
  ego : EgoSample
deriving Repr

/-- Loop-owned state relevant to the claims: the watchdog timestamp
`_last_frame_time` as seen by this tick and the telemetry ring. -/
structure LoopState where
  lastFrameTime : ℚ
  telemetry : List TelemetryRecord
deriving DecidableEq, Repr

/-- Outcome of one iteration of the `while running` body. -/
structure TickResult where
  /-- `some r` when the loop stops iterating after this tick (watchdog
  `break`, or `running` set to `False` by an event and observed at the top of
  the next iteration); `none` when a further tick follows. -/
  exit : Option ExitReason
  /-- whether the watchdog comparison on line 316 was evaluated this tick. -/
  watchdogChecked : Bool
  /-- whether the tick took the `snap is None` path: `time.sleep(0.05)` then
  `continue`. -/
  sleptAndRetried : Bool
  state : LoopState
deriving Repr

/-- One iteration of the main loop body (src/traffic.py lines 298-420),
restricted to event handling, snapshot polling, the watchdog and the
telemetry block.  The walker scheduler is modelled separately below; the
renderer and `clock.tick` mutate nothing a claim mentions. -/
def tickStep (inp : TickInput) (st : LoopState) : TickResult :=
  match inp.snap with
  | none =>
      { exit := if inp.quit then some .userQuit else none
        watchdogChecked := false
        sleptAndRetried := true
        state := st }
  | some snap =>
      if checkStalled inp.now st.lastFrameTime NO_FRAME_TIMEOUT then
        { exit := some .watchdogStall
          watchdogChecked := true
          sleptAndRetried := false
          state := st }
      else
        { exit := if inp.quit then some .userQuit else none
          watchdogChecked := true
          sleptAndRetried := false
          state := { st with
            telemetry := telemetryTickBlock inp.egoOk snap inp.ego st.telemetry } }

/-- Run the main loop on a stream of tick inputs: stop at the first tick whose
result exits (and report its reason, after which control falls into the
`finally` cleanup), otherwise keep iterating. -/
def runLoop : List TickInput → LoopState → LoopState × Option ExitReason
  | [], st => (st, none)
  | inp :: rest, st =>
      let r := tickStep inp st
      match r.exit with
      | some e => (r.state, some e)
      | none => runLoop rest r.state

/-! ## Jaywalker staging and triggering (src/traffic.py lines 334-398)

Walkers are identified by the order in which they were spawned (`nextId` is
the id the next successfully spawned walker will get).  `staged` models the
list `staged_walkers` of `(walker, ctrl, dest, trig)` tuples, `walkers` the
list of triggered walkers, `destroyed` the walkers on which `destroy()` was
invoked before shutdown. -/

/-- Scheduler state carried across ticks of the main loop. -/
structure SchedState where
  walkers : List Nat
  staged : List Nat
  destroyed : List Nat
  nextId : Nat
deriving DecidableEq, Repr

/-- Initial scheduler state: `walkers = []`, `staged_walkers = []`. -/
def schedInit : SchedState := ⟨[], [], [], 0⟩

/-- Environment inputs of one scheduler tick.  `stagingOpportunity` is
`(not args.no_walkers) and snap.frame > 40 and snap.frame % 200 == 0`
(line 335, capacity excluded); `resolveOk` is `future` nonempty and
`spawn_wp` resolving; `spawnOk` is `try_spawn_actor` returning a walker;
`ctrlOk` is the controller `spawn_actor` succeeding; `near w` is
`walker.get_location().distance(ego_location) < trig` for staged walker `w`;
`locFail w` is that distance query raising. -/
structure SchedInput where
  stagingOpportunity : Bool
  resolveOk : Bool
  spawnOk : Bool
  ctrlOk : Bool
  near : Nat → Bool
  locFail : Nat → Bool

/-- State after a successful staging: the new walker joins `staged_walkers`
(src/traffic.py line 371) and the next spawn will yield a fresh handle. -/
def stagedPush (st : SchedState) : SchedState :=
  { st with staged := st.staged ++ [st.nextId], nextId := st.nextId + 1 }

/-- State after a controller-attach failure: the freshly spawned walker is
destroyed (src/traffic.py lines 363-367) and nothing is tracked. -/
def destroyedPush (st : SchedState) : SchedState :=
  { st with destroyed := st.destroyed ++ [st.nextId], nextId := st.nextId + 1 }

/-- Staging block (src/traffic.py lines 335-374).  Returns the new state and
whether the `continue` on line 368 fired (controller attachment failed: the
spawned walker is destroyed, nothing is staged, and the rest of the tick body
is skipped).  A resolve or spawn failure falls through with no change. -/
def stagingStep (inp : SchedInput) (st : SchedState) : SchedState × Bool :=
  if inp.stagingOpportunity ∧ st.walkers.length + st.staged.length < MAX_CROSSERS then
    if inp.resolveOk then
      if inp.spawnOk then
        if inp.ctrlOk then (stagedPush st, false)
        else (destroyedPush st, true)
      else (st, false)
    else (st, false)
  else (st, false)

/-- One pass of the trigger loop (src/traffic.py lines 377-397) over the
staged list, in order: a walker whose location query raises is dropped (and
destroyed), a near walker is triggered, a far walker stays staged.  Returns
(newly triggered, still staged, dropped). -/
def triggerPass (near locFail : Nat → Bool) :
    List Nat → List Nat × List Nat × List Nat
  | [] => ([], [], [])
  | w :: rest =>
      let (t, r, d) := triggerPass near locFail rest
      if locFail w then (t, r, w :: d)
      else if near w then (w :: t, r, d)
      else (t, w :: r, d)

/-- Trigger step: `staged_walkers = remaining` after appending the triggered
walkers to `walkers` (line 387) and dropping the failed ones. -/
def triggerStep (inp : SchedInput) (st : SchedState) : SchedState :=
  let (t, r, d) := triggerPass inp.near inp.locFail st.staged
  { st with
    walkers := st.walkers ++ t
    staged := r
    destroyed := st.destroyed ++ d }

/-- One scheduler tick: the staging block, then — unless its `continue`
fired — the trigger loop. -/
def schedTick (inp : SchedInput) (st : SchedState) : SchedState :=
  let (st1, aborted) := stagingStep inp st
  if aborted then st1 else triggerStep inp st1

/-- Run the scheduler over a sequence of tick inputs. -/
def schedRun (trace : List SchedInput) (st : SchedState) : SchedState :=
  trace.foldl (fun s i => schedTick i s) st

/-! ## Shutdown cleanup (src/traffic.py lines 428-484, the `finally` block) -/

/-- The externally visible cleanup actions.  `stopSensorListening` (an
explicit `sensor.stop()` before teardown) is included so that its absence
from the performed sequence can be stated. -/
inductive CleanupStep
  | stopSensorListening
  | flushTelemetry
  | drainSaveQueue
  | stopSaverThread
  | batchDestroyActors
  | restoreSettings
  | quitDisplay
deriving DecidableEq, Repr

/-- The sequence the `finally` block performs, in source order: save
`telemetry.csv` (lines 432-440), `save_queue.join()` (line 444),
`stop_saver.set(); saver_thread.join(timeout=1.0)` (lines 447-448), batch
`DestroyActor` for sensors, controllers, walkers and vehicles (lines
451-474), `world.apply_settings(original_settings)` (lines 477-481),
`pygame.quit()` (line 483). -/
def cleanupSteps : List CleanupStep :=
  [.flushTelemetry, .drainSaveQueue, .stopSaverThread,
   .batchDestroyActors, .restoreSettings, .quitDisplay]

/-- A blocking wait performed during shutdown, with its timeout if any. -/
structure BlockingWait where
  timeoutSeconds : Option ℚ
deriving DecidableEq, Repr

/-- The wait for the persistence queue to drain: `save_queue.join()` takes no
timeout argument (src/traffic.py lines 442-444). -/
def saveQueueJoinWait : BlockingWait := ⟨none⟩

/-- The wait for the saver thread to exit: `saver_thread.join(timeout=1.0)`
(src/traffic.py line 448). -/
def saverThreadJoinWait : BlockingWait := ⟨some 1⟩

/-- The blocking waits of the cleanup phase, in order. -/
def shutdownWaits : List BlockingWait := [saveQueueJoinWait, saverThreadJoinWait]

/-- One full drain of the saver loop (src/traffic.py lines 63-79) over a
frozen list of pending tasks: each iteration dequeues one task, attempts the
write (`writeOk` says whether `save_to_disk` succeeds; a failure is logged,
never fatal) and calls `save_queue.task_done()` in a `finally`.  Returns the
number of `task_done` calls and the tasks whose write failed. -/
def saverDrain (writeOk : PersistTask → Bool) :
    List PersistTask → Nat × List PersistTask
  | [] => (0, [])
  | t :: rest =>
      let (n, failed) := saverDrain writeOk rest
      (n + 1, (if writeOk t then [] else [t]) ++ failed)

/-! ## Lemmas about the telemetry ring -/

/-- Closed form of one `deque` append: keep the last `cap` elements. -/
theorem ringAppend_eq_drop (cap : Nat) (xs : List TelemetryRecord)
    (x : TelemetryRecord) :
    ringAppend cap xs x = (xs ++ [x]).drop ((xs ++ [x]).length - cap) := by
  simp only [ringAppend]
  split
  · rfl
  next h =>
    have h0 : (xs ++ [x]).length - cap = 0 := by omega
    rw [h0, List.drop_zero]

/-- A `deque` with `maxlen = cap` never exceeds `cap` elements. -/
theorem ringAppend_length_le (cap : Nat) (xs : List TelemetryRecord)
    (x : TelemetryRecord) : (ringAppend cap xs x).length ≤ cap := by
  rw [ringAppend_eq_drop]
  simp
  omega

/-- Closed form of a sequence of appends: the ring retains the suffix of the
full append history of length `cap`. -/
theorem ringAppendAll_eq_drop (cap : Nat) :
    ∀ (l xs : List TelemetryRecord), xs.length ≤ cap →
      ringAppendAll cap xs l = (xs ++ l).drop ((xs ++ l).length - cap)
  | [], xs, h => by
      have h0 : xs.length - cap = 0 := by omega
      simp [ringAppendAll, h0]
  | x :: l, xs, h => by
      have hx : (ringAppend cap xs x).length ≤ cap := ringAppend_length_le cap xs x
      have step : ringAppendAll cap xs (x :: l)
          = ringAppendAll cap (ringAppend cap xs x) l := rfl
      rw [step, ringAppendAll_eq_drop cap l (ringAppend cap xs x) hx,
          ringAppend_eq_drop]
      have hk : (xs ++ [x]).length - cap ≤ (xs ++ [x]).length := Nat.sub_le _ _
      rw [← List.drop_append_of_le_length hk, List.drop_drop, List.length_drop]
      have harr : xs ++ [x] ++ l = xs ++ x :: l := by simp
      rw [harr]
      congr 1
      simp only [List.length_append, List.length_cons, List.length_nil]
      omega

/-- C3: for every configured capacity `cap` the telemetry ring holds at most
`cap` records after any append; a run of appends retains exactly the most
recent `cap` records of the append history in chronological order; in
particular after `cap + 1` appends starting from empty the ring is exactly
the history minus its first record. -/
theorem telemetryRing_capacity_window (cap : Nat) (xs : List TelemetryRecord)
    (x : TelemetryRecord) (l : List TelemetryRecord) :
    (ringAppend cap xs x).length ≤ cap
    ∧ (xs.length ≤ cap →
        ringAppendAll cap xs l = (xs ++ l).drop ((xs ++ l).length - cap))
    ∧ (l.length = cap + 1 → ringAppendAll cap [] l = l.tail) := by
  refine ⟨ringAppend_length_le cap xs x, ringAppendAll_eq_drop cap l xs, ?_⟩
  intro hl
  rw [ringAppendAll_eq_drop cap l [] (by simp)]
  have h1 : ([] ++ l : List TelemetryRecord).length - cap = 1 := by
    simp [hl]
  rw [h1]
  simp [List.drop_one]

/-- Witness for C3 at capacity 2 and three appends. -/
theorem telemetryRing_capacity_window_witness :
    ([] : List TelemetryRecord).length ≤ 2
    ∧ ([⟨1,0,0,0,0,0,0,0,0⟩, ⟨2,0,0,0,0,0,0,0,0⟩,
        ⟨3,0,0,0,0,0,0,0,0⟩] : List TelemetryRecord).length = 2 + 1
    ∧ ringAppendAll 2 []
        [⟨1,0,0,0,0,0,0,0,0⟩, ⟨2,0,0,0,0,0,0,0,0⟩, ⟨3,0,0,0,0,0,0,0,0⟩]
      = [⟨2,0,0,0,0,0,0,0,0⟩, ⟨3,0,0,0,0,0,0,0,0⟩] :=
  ⟨by decide, by decide,
   (telemetryRing_capacity_window 2 [] ⟨1,0,0,0,0,0,0,0,0⟩
     [⟨1,0,0,0,0,0,0,0,0⟩, ⟨2,0,0,0,0,0,0,0,0⟩, ⟨3,0,0,0,0,0,0,0,0⟩]).2.2 rfl⟩

/-! ## Theorems about frame sampling -/

/-- C2: with sampling interval `n > 0` the camera callback enqueues exactly
one persistence task for the frame with sequence number `s` — the zero-padded
PNG path in that stream's directory — if and only if `s % n = 0`; with
`n = 0` nothing is ever enqueued, and the `--no-save` flag sets the interval
to 0. -/
theorem frameSampling_iff (n s : Nat) (front : Bool) (now : ℚ) (st : CamState) :
    (0 < n →
      ((cameraCallback n front now s st).saveQueue
          = st.saveQueue
            ++ [⟨framePath (if front then FRONT_DIR else THIRD_DIR) s, s⟩]
        ↔ s % n = 0))
    ∧ (n = 0 → (cameraCallback n front now s st).saveQueue = st.saveQueue)
    ∧ effectiveSaveEveryN true = 0 := by
  refine ⟨?_, ?_, rfl⟩
  · intro hn
    by_cases hs : s % n = 0
    · simp [cameraCallback, shouldEnqueue, hn, hs]
    · simp [cameraCallback, shouldEnqueue, hn, hs]
  · intro hn
    simp [cameraCallback, shouldEnqueue, hn]

/-- Witness for C2: interval 60, frame 120 on the front stream is enqueued. -/
theorem frameSampling_iff_witness :
    0 < 60
    ∧ (cameraCallback 60 true 0 120 ⟨0, 0, []⟩).saveQueue
        = ([] : List PersistTask)
          ++ [⟨framePath (if true then FRONT_DIR else THIRD_DIR) 120, 120⟩] :=
  ⟨by decide,
   ((frameSampling_iff 60 120 true 0 ⟨0, 0, []⟩).1 (by decide)).mpr (by decide)⟩

/-! ## Theorems about the control loop, watchdog and telemetry block -/

/-- C1 (refuting): no control-loop tick ever appends a telemetry record.
Line 327 of src/traffic.py assigns to the `append` attribute of a
`collections.deque`, which raises `AttributeError`; the surrounding
`except Exception: pass` swallows it, so the `telemetry.append([...])` call
on line 328 never executes — on a tick with a snapshot and a live watchdog
the ring is left unchanged rather than extended by one record.  The second
conjunct evaluates a concrete such tick. -/
theorem telemetry_never_appended (inp : TickInput) (st : LoopState) :
    (tickStep inp st).state.telemetry = st.telemetry
    ∧ (tickStep ⟨false, some ⟨100, 5⟩, 1, true, ⟨0, 0, 0, 0, 0, 0, 0⟩⟩
        ⟨0, []⟩).state.telemetry = []
    ∧ (tickStep ⟨false, some ⟨100, 5⟩, 1, true, ⟨0, 0, 0, 0, 0, 0, 0⟩⟩
        ⟨0, []⟩).exit = none := by
  have hmain : ∀ (j : TickInput) (s : LoopState),
      (tickStep j s).state.telemetry = s.telemetry := by
    intro j s
    obtain ⟨q, sn, nw, eo, eg⟩ := j
    cases sn with
    | none => rfl
    | some snap =>
        by_cases h : checkStalled nw s.lastFrameTime NO_FRAME_TIMEOUT
        · simp [tickStep, h]
        · simp [tickStep, h, telemetryTickBlock, dequeAttrAssignRaises]
  refine ⟨hmain inp st, hmain _ _, ?_⟩
  have hq : checkStalled 1 0 NO_FRAME_TIMEOUT = false := by
    norm_num [checkStalled, NO_FRAME_TIMEOUT]
  simp [tickStep, hq]

/-- C4: on a tick that obtained a snapshot the watchdog comparison reports
stalled exactly when the elapsed time since the last frame exceeds the
threshold (with threshold 10 and last frame at 0, a check at 11 stalls and a
check at 9 does not), and a stalled tick terminates the loop immediately —
`runLoop` ignores every later tick input and returns to cleanup with reason
`watchdogStall`. -/
theorem watchdog_fatal (inp : TickInput) (st : LoopState) (snap : Snapshot)
    (rest : List TickInput) (hs : inp.snap = some snap) :
    checkStalled 11 0 NO_FRAME_TIMEOUT = true
    ∧ checkStalled 9 0 NO_FRAME_TIMEOUT = false
    ∧ ((tickStep inp st).exit = some ExitReason.watchdogStall
        ↔ NO_FRAME_TIMEOUT < inp.now - st.lastFrameTime)
    ∧ (checkStalled inp.now st.lastFrameTime NO_FRAME_TIMEOUT = true →
        runLoop (inp :: rest) st = (st, some ExitReason.watchdogStall)) := by
  obtain ⟨q, sn, nw, eo, eg⟩ := inp
  cases hs
  refine ⟨by norm_num [checkStalled, NO_FRAME_TIMEOUT],
          by norm_num [checkStalled, NO_FRAME_TIMEOUT], ?_, ?_⟩
  · by_cases h : checkStalled nw st.lastFrameTime NO_FRAME_TIMEOUT
    · have hlt : NO_FRAME_TIMEOUT < nw - st.lastFrameTime := by
        simpa [checkStalled] using h
      simp [tickStep, h, hlt]
    · have hge : ¬ NO_FRAME_TIMEOUT < nw - st.lastFrameTime := by
        simpa [checkStalled] using h
      cases q <;> simp [tickStep, h, hge]
  · intro h
    simp [runLoop, tickStep, h]

/-- Witness for C4: a tick at time 20 with the last frame at 0 stalls and
stops the loop. -/
theorem watchdog_fatal_witness :
    checkStalled 20 0 NO_FRAME_TIMEOUT = true
    ∧ runLoop [⟨false, some ⟨1, 0⟩, 20, true, ⟨0, 0, 0, 0, 0, 0, 0⟩⟩] ⟨0, []⟩
        = (⟨0, []⟩, some ExitReason.watchdogStall) :=
  ⟨by norm_num [checkStalled, NO_FRAME_TIMEOUT],
   (watchdog_fatal ⟨false, some ⟨1, 0⟩, 20, true, ⟨0, 0, 0, 0, 0, 0, 0⟩⟩
      ⟨0, []⟩ ⟨1, 0⟩ [] rfl).2.2.2
     (by norm_num [checkStalled, NO_FRAME_TIMEOUT])⟩

/-- Steady refusal of the snapshot poll never reaches the watchdog: a run
whose every tick polls no snapshot and sees no quit event never exits. -/
theorem runLoop_all_failed_polls (trace : List TickInput) (st : LoopState)
    (h : ∀ i ∈ trace, i.snap = none ∧ i.quit = false) :
    runLoop trace st = (st, none) := by
  induction trace with
  | nil => rfl
  | cons i rest ih =>
      obtain ⟨h1, h2⟩ := h i (by simp)
      have hstep : tickStep i st
          = { exit := none, watchdogChecked := false, sleptAndRetried := true,
              state := st } := by
        obtain ⟨q, sn, nw, eo, eg⟩ := i
        cases h1
        simp at h2
        simp [tickStep, h2]
      simp only [runLoop, hstep]
      exact ih (fun j hj => h j (by simp [hj]))

/-- C9: a tick whose snapshot poll failed sleeps and restarts the tick before
the watchdog comparison (never evaluating it and changing no state), so an
unbroken sequence of failed polls can never be terminated by the watchdog —
only a quit event ends the loop there. -/
theorem failedPoll_skips_watchdog (inp : TickInput) (st : LoopState)
    (rest trace : List TickInput) (h : inp.snap = none) :
    (tickStep inp st).watchdogChecked = false
    ∧ (tickStep inp st).sleptAndRetried = true
    ∧ (tickStep inp st).state = st
    ∧ ((tickStep inp st).exit = none ↔ inp.quit = false)
    ∧ (inp.quit = true →
        runLoop (inp :: rest) st = (st, some ExitReason.userQuit))
    ∧ ((∀ i ∈ trace, i.snap = none ∧ i.quit = false) →
        runLoop trace st = (st, none)) := by
  obtain ⟨q, sn, nw, eo, eg⟩ := inp
  cases h
  refine ⟨rfl, rfl, rfl, ?_, ?_, runLoop_all_failed_polls trace st⟩
  · cases q <;> simp [tickStep]
  · intro hq
    simp at hq
    cases hq
    simp [runLoop, tickStep]

/-- Witness for C9: three consecutive failed polls leave the loop running
with untouched state even with the last frame arbitrarily old. -/
theorem failedPoll_skips_watchdog_witness :
    (tickStep ⟨false, none, 1000, true, ⟨0, 0, 0, 0, 0, 0, 0⟩⟩
        ⟨0, []⟩).watchdogChecked = false
    ∧ runLoop
        [⟨false, none, 1000, true, ⟨0, 0, 0, 0, 0, 0, 0⟩⟩,
         ⟨false, none, 2000, true, ⟨0, 0, 0, 0, 0, 0, 0⟩⟩] ⟨0, []⟩
      = (⟨0, []⟩, none) :=
  ⟨(failedPoll_skips_watchdog ⟨false, none, 1000, true, ⟨0, 0, 0, 0, 0, 0, 0⟩⟩
      ⟨0, []⟩ [] [] rfl).1,
   (failedPoll_skips_watchdog ⟨false, none, 1000, true, ⟨0, 0, 0, 0, 0, 0, 0⟩⟩
      ⟨0, []⟩ []
      [⟨false, none, 1000, true, ⟨0, 0, 0, 0, 0, 0, 0⟩⟩,
       ⟨false, none, 2000, true, ⟨0, 0, 0, 0, 0, 0, 0⟩⟩] rfl).2.2.2.2.2
     (by
        intro i hi
        fin_cases hi <;> exact ⟨rfl, rfl⟩)⟩

/-! ## Theorems about the shutdown sequence -/

/-- C7 (refuting): the cleanup phase never performs a stop-listening step on
the sensors; sensors keep their listeners until they are destroyed in the
actor batch, which happens after the persistence drain. -/
theorem cleanup_no_stopListening :
    CleanupStep.stopSensorListening ∉ cleanupSteps := by decide

/-- C7 (amended): the cleanup phase runs, in order, telemetry flush →
persistence-queue drain → saver-thread stop → batch actor destruction (which
is what detaches the sensors) → world-settings restore → display shutdown;
in particular the drain precedes the batch destroy, which precedes the
restore, and no separate stop-listening step exists. -/
theorem cleanupOrder_actual :
    cleanupSteps
      = [CleanupStep.flushTelemetry, CleanupStep.drainSaveQueue,
         CleanupStep.stopSaverThread, CleanupStep.batchDestroyActors,
         CleanupStep.restoreSettings, CleanupStep.quitDisplay]
    ∧ cleanupSteps.indexOf CleanupStep.drainSaveQueue
        < cleanupSteps.indexOf CleanupStep.batchDestroyActors
    ∧ cleanupSteps.indexOf CleanupStep.batchDestroyActors
        < cleanupSteps.indexOf CleanupStep.restoreSettings := by
  refine ⟨rfl, by decide, by decide⟩

/-- C8 (refuting): not every blocking wait of the shutdown phase carries a
timeout — `save_queue.join()` is called with none. -/
theorem shutdownWait_unbounded :
    ¬ (∀ w ∈ shutdownWaits, w.timeoutSeconds.isSome = true) := by decide

/-- C8 (amended): the saver-thread join is bounded by a 1-second timeout but
the persistence-drain wait has no timeout; it returns once `task_done` has
been called for every pending task, and the saver loop calls `task_done`
exactly once per dequeued task even when the write fails, so over any frozen
backlog the drain finishes after exactly that many iterations. -/
theorem persistenceDrain_actual (writeOk : PersistTask → Bool)
    (pending : List PersistTask) :
    saveQueueJoinWait.timeoutSeconds = none
    ∧ saverThreadJoinWait.timeoutSeconds = some 1
    ∧ (saverDrain writeOk pending).1 = pending.length := by
  refine ⟨rfl, rfl, ?_⟩
  induction pending with
  | nil => rfl
  | cons t rest ih => simp [saverDrain, ih]

/-! ## Lemmas about the walker scheduler -/

/-- Every staged walker goes to exactly one of triggered / remaining /
dropped during the trigger loop. -/
theorem triggerPass_length (near locFail : Nat → Bool) (l : List Nat) :
    (triggerPass near locFail l).1.length
      + (triggerPass near locFail l).2.1.length
      + (triggerPass near locFail l).2.2.length = l.length := by
  induction l with
  | nil => rfl
  | cons w rest ih =>
      rcases hrec : triggerPass near locFail rest with ⟨t, r, d⟩
      have ih2 : t.length + r.length + d.length = rest.length := by
        simpa [hrec] using ih
      simp only [triggerPass, hrec]
      by_cases h1 : locFail w = true
      · simp [h1]
        omega
      · by_cases h2 : near w = true
        · simp [h1, h2]
          omega
        · simp [h1, h2]
          omega


/-- The triggered and remaining lists of the trigger loop only contain
walkers that were staged when the loop started. -/
theorem triggerPass_subset (near locFail : Nat → Bool) (l : List Nat)
    (w : Nat) :
    (w ∈ (triggerPass near locFail l).1 → w ∈ l)
    ∧ (w ∈ (triggerPass near locFail l).2.1 → w ∈ l) := by
  induction l with
  | nil => simp [triggerPass]
  | cons a rest ih =>
      rcases hrec : triggerPass near locFail rest with ⟨t, r, d⟩
      have ih2 : (w ∈ t → w ∈ rest) ∧ (w ∈ r → w ∈ rest) := by
        constructor
        · intro hw
          exact ih.1 (by rw [hrec]; exact hw)
        · intro hw
          exact ih.2 (by rw [hrec]; exact hw)
      simp only [triggerPass, hrec]
      by_cases h1 : locFail a = true
      · simp only [h1, if_true]
        exact ⟨fun hw => List.mem_cons_of_mem a (ih2.1 hw),
               fun hw => List.mem_cons_of_mem a (ih2.2 hw)⟩
      · by_cases h2 : near a = true
        · simp only [h1, h2, if_true, if_false]
          refine ⟨fun hw => ?_, fun hw => List.mem_cons_of_mem a (ih2.2 hw)⟩
          rcases List.mem_cons.mp hw with rfl | hw
          · exact List.mem_cons_self _ _
          · exact List.mem_cons_of_mem a (ih2.1 hw)
        · simp only [h1, h2, if_false]
          refine ⟨fun hw => List.mem_cons_of_mem a (ih2.1 hw), fun hw => ?_⟩
          rcases List.mem_cons.mp hw with rfl | hw
          · exact List.mem_cons_self _ _
          · exact List.mem_cons_of_mem a (ih2.2 hw)

/-- Exhaustive description of the staging block: either nothing changes and
control falls through, or — under the capacity gate — a walker is staged, or
— under the capacity gate, on controller-attach failure — the walker is
destroyed and the rest of the tick is skipped. -/
theorem stagingStep_cases (inp : SchedInput) (st : SchedState) :
    stagingStep inp st = (st, false)
    ∨ (st.walkers.length + st.staged.length < MAX_CROSSERS
        ∧ stagingStep inp st = (stagedPush st, false))
    ∨ (st.walkers.length + st.staged.length < MAX_CROSSERS
        ∧ stagingStep inp st = (destroyedPush st, true)) := by
  unfold stagingStep
  split_ifs with h1 h2 h3 h4
  · exact Or.inr (Or.inl ⟨h1.2, rfl⟩)
  · exact Or.inr (Or.inr ⟨h1.2, rfl⟩)
  · exact Or.inl rfl
  · exact Or.inl rfl
  · exact Or.inl rfl

/-- The trigger loop never increases the combined staged + triggered count. -/
theorem triggerStep_card_le (inp : SchedInput) (st : SchedState) :
    (triggerStep inp st).walkers.length + (triggerStep inp st).staged.length
      ≤ st.walkers.length + st.staged.length := by
  rcases hrec : triggerPass inp.near inp.locFail st.staged with ⟨t, r, d⟩
  have hlen := triggerPass_length inp.near inp.locFail st.staged
  rw [hrec] at hlen
  simp only [triggerStep, hrec, List.length_append]
  simp at hlen ⊢
  omega

/-- The trigger loop does not touch `nextId`. -/
theorem triggerStep_nextId (inp : SchedInput) (st : SchedState) :
    (triggerStep inp st).nextId = st.nextId := by
  rcases hrec : triggerPass inp.near inp.locFail st.staged with ⟨t, r, d⟩
  simp [triggerStep, hrec]

/-- Triggered walkers are only ever appended to. -/
theorem triggerStep_walkers_mono (inp : SchedInput) (st : SchedState) :
    st.walkers <+: (triggerStep inp st).walkers := by
  rcases hrec : triggerPass inp.near inp.locFail st.staged with ⟨t, r, d⟩
  simp [triggerStep, hrec]

/-- A walker in neither list before the trigger loop is in neither list
after it. -/
theorem triggerStep_fresh (inp : SchedInput) (st : SchedState) (id : Nat)
    (h1 : id ∉ st.staged) (h2 : id ∉ st.walkers) :
    id ∉ (triggerStep inp st).staged ∧ id ∉ (triggerStep inp st).walkers := by
  rcases hrec : triggerPass inp.near inp.locFail st.staged with ⟨t, r, d⟩
  have hsub := triggerPass_subset inp.near inp.locFail st.staged id
  rw [hrec] at hsub
  simp only [triggerStep, hrec]
  constructor
  · exact fun hw => h1 (hsub.2 hw)
  · intro hw
    rcases List.mem_append.mp hw with hw | hw
    · exact h2 hw
    · exact h1 (hsub.1 hw)

/-- One scheduler tick preserves the capacity bound. -/
theorem schedTick_card_le (inp : SchedInput) (st : SchedState)
    (h : st.walkers.length + st.staged.length ≤ MAX_CROSSERS) :
    (schedTick inp st).walkers.length + (schedTick inp st).staged.length
      ≤ MAX_CROSSERS := by
  rcases stagingStep_cases inp st with hc | ⟨hlt, hc⟩ | ⟨hlt, hc⟩
  · have hst : schedTick inp st = triggerStep inp st := by
      simp [schedTick, hc]
    rw [hst]
    exact le_trans (triggerStep_card_le inp st) h
  · have hst : schedTick inp st = triggerStep inp (stagedPush st) := by
      simp [schedTick, hc]
    rw [hst]
    have htr := triggerStep_card_le inp (stagedPush st)
    have hps : (stagedPush st).walkers.length + (stagedPush st).staged.length
        = st.walkers.length + (st.staged.length + 1) := by
      simp [stagedPush]
    rw [hps] at htr
    omega
  · have hst : schedTick inp st = destroyedPush st := by
      simp [schedTick, hc]
    rw [hst]
    exact h

/-- Any run from a state within the capacity bound stays within it. -/
theorem schedRun_card_le (trace : List SchedInput) :
    ∀ st : SchedState, st.walkers.length + st.staged.length ≤ MAX_CROSSERS →
      (schedRun trace st).walkers.length + (schedRun trace st).staged.length
        ≤ MAX_CROSSERS := by
  induction trace with
  | nil => exact fun st h => h
  | cons i tr ih => exact fun st h => ih (schedTick i st) (schedTick_card_le i st h)

/-- One scheduler tick preserves freshness: a walker id below `nextId` that
is tracked by neither list stays untracked. -/
theorem schedTick_fresh (inp : SchedInput) (st : SchedState) (id : Nat)
    (h1 : id < st.nextId) (h2 : id ∉ st.staged) (h3 : id ∉ st.walkers) :
    id < (schedTick inp st).nextId ∧ id ∉ (schedTick inp st).staged
      ∧ id ∉ (schedTick inp st).walkers := by
  rcases stagingStep_cases inp st with hc | ⟨hlt, hc⟩ | ⟨hlt, hc⟩
  · have hst : schedTick inp st = triggerStep inp st := by
      simp [schedTick, hc]
    rw [hst, triggerStep_nextId]
    exact ⟨h1, (triggerStep_fresh inp st id h2 h3).1,
           (triggerStep_fresh inp st id h2 h3).2⟩
  · have hst : schedTick inp st = triggerStep inp (stagedPush st) := by
      simp [schedTick, hc]
    have h2a : id ∉ (stagedPush st).staged := by
      intro hw
      rcases List.mem_append.mp hw with hw | hw
      · exact h2 hw
      · simp at hw
        omega
    have h3a : id ∉ (stagedPush st).walkers := h3
    rw [hst, triggerStep_nextId]
    refine ⟨by simp [stagedPush]; omega, ?_, ?_⟩
    · exact (triggerStep_fresh inp _ id h2a h3a).1
    · exact (triggerStep_fresh inp _ id h2a h3a).2
  · have hst : schedTick inp st = destroyedPush st := by
      simp [schedTick, hc]
    rw [hst]
    exact ⟨by simp [destroyedPush]; omega, h2, h3⟩

/-- Freshness is preserved along any run. -/
theorem schedRun_fresh (trace : List SchedInput) :
    ∀ (st : SchedState) (id : Nat), id < st.nextId → id ∉ st.staged →
      id ∉ st.walkers →
      id < (schedRun trace st).nextId ∧ id ∉ (schedRun trace st).staged
        ∧ id ∉ (schedRun trace st).walkers := by
  induction trace with
  | nil => exact fun st id a b c => ⟨a, b, c⟩
  | cons i tr ih =>
      intro st id a b c
      have h := schedTick_fresh i st id a b c
      exact ih (schedTick i st) id h.1 h.2.1 h.2.2

/-- Triggered walkers survive every tick. -/
theorem schedTick_walkers_mono (inp : SchedInput) (st : SchedState) :
    st.walkers <+: (schedTick inp st).walkers := by
  rcases stagingStep_cases inp st with hc | ⟨hlt, hc⟩ | ⟨hlt, hc⟩
  · have hst : schedTick inp st = triggerStep inp st := by
      simp [schedTick, hc]
    rw [hst]
    exact triggerStep_walkers_mono inp st
  · have hst : schedTick inp st = triggerStep inp (stagedPush st) := by
      simp [schedTick, hc]
    rw [hst]
    have hpre := triggerStep_walkers_mono inp (stagedPush st)
    have hw : (stagedPush st).walkers = st.walkers := rfl
    rw [hw] at hpre
    exact hpre
  · have hst : schedTick inp st = destroyedPush st := by
      simp [schedTick, hc]
    rw [hst]
    exact List.prefix_rfl

/-- Triggered walkers survive every run. -/
theorem schedRun_walkers_mono (trace : List SchedInput) :
    ∀ st : SchedState, st.walkers <+: (schedRun trace st).walkers := by
  induction trace with
  | nil => exact fun st => List.prefix_rfl
  | cons i tr ih =>
      exact fun st => (schedTick_walkers_mono i st).trans (ih (schedTick i st))

/-- With the triggered list already at capacity, a tick spawns nothing. -/
theorem schedTick_blocked (inp : SchedInput) (st : SchedState)
    (h : MAX_CROSSERS ≤ st.walkers.length) :
    (schedTick inp st).nextId = st.nextId := by
  rcases stagingStep_cases inp st with hc | ⟨hlt, hc⟩ | ⟨hlt, hc⟩
  · have hst : schedTick inp st = triggerStep inp st := by
      simp [schedTick, hc]
    rw [hst, triggerStep_nextId]
  · omega
  · omega

/-- With the triggered list already at capacity, no run ever spawns
another walker. -/
theorem schedRun_blocked (trace : List SchedInput) :
    ∀ st : SchedState, MAX_CROSSERS ≤ st.walkers.length →
      (schedRun trace st).nextId = st.nextId := by
  induction trace with
  | nil => exact fun st _ => rfl
  | cons i tr ih =>
      intro st h
      have h2 : MAX_CROSSERS ≤ (schedTick i st).walkers.length :=
        le_trans h (schedTick_walkers_mono i st).length_le
      calc (schedRun (i :: tr) st).nextId
          = (schedRun tr (schedTick i st)).nextId := rfl
        _ = (schedTick i st).nextId := ih (schedTick i st) h2
        _ = st.nextId := schedTick_blocked i st h

/-! ## Theorems about the walker scheduler -/

/-- C5: starting from any state within the capacity bound — in particular
from the initial state, whose staged and triggered lists are empty — the
combined number of staged plus triggered walkers never exceeds
`MAX_CROSSERS` at any point of any run, whatever the staging cadence and
trigger pattern supplied by the environment. -/
theorem crosser_cap_invariant (trace : List SchedInput) (st : SchedState)
    (h : st.walkers.length + st.staged.length ≤ MAX_CROSSERS) :
    (schedRun trace st).walkers.length + (schedRun trace st).staged.length
      ≤ MAX_CROSSERS
    ∧ schedInit.walkers.length + schedInit.staged.length ≤ MAX_CROSSERS :=
  ⟨schedRun_card_le trace st h, by decide⟩

/-- Witness for C5 on a run of three staging opportunities from the initial
state. -/
theorem crosser_cap_invariant_witness :
    schedInit.walkers.length + schedInit.staged.length ≤ MAX_CROSSERS
    ∧ (schedRun
        [⟨true, true, true, true, fun _ => false, fun _ => false⟩,
         ⟨true, true, true, true, fun _ => false, fun _ => false⟩,
         ⟨true, true, true, true, fun _ => false, fun _ => false⟩]
        schedInit).walkers.length
      + (schedRun
          [⟨true, true, true, true, fun _ => false, fun _ => false⟩,
           ⟨true, true, true, true, fun _ => false, fun _ => false⟩,
           ⟨true, true, true, true, fun _ => false, fun _ => false⟩]
          schedInit).staged.length ≤ MAX_CROSSERS :=
  ⟨by decide,
   (crosser_cap_invariant
     [⟨true, true, true, true, fun _ => false, fun _ => false⟩,
      ⟨true, true, true, true, fun _ => false, fun _ => false⟩,
      ⟨true, true, true, true, fun _ => false, fun _ => false⟩]
     schedInit (by decide)).1⟩

/-- C6: when a staging opportunity spawns a walker but attaching its
controller fails, the tick ends with that walker recorded as destroyed,
the staged and triggered lists exactly as before (the `continue` skips the
rest of the tick), and the walker never appears in the staged or triggered
list at any later point of the run. -/
theorem controllerFailure_no_tracking (inp : SchedInput) (st : SchedState)
    (trace : List SchedInput)
    (hop : inp.stagingOpportunity = true)
    (hcap : st.walkers.length + st.staged.length < MAX_CROSSERS)
    (hres : inp.resolveOk = true) (hsp : inp.spawnOk = true)
    (hct : inp.ctrlOk = false)
    (hf1 : st.nextId ∉ st.staged) (hf2 : st.nextId ∉ st.walkers) :
    schedTick inp st = destroyedPush st
    ∧ st.nextId ∈ (schedTick inp st).destroyed
    ∧ (schedTick inp st).staged = st.staged
    ∧ (schedTick inp st).walkers = st.walkers
    ∧ st.nextId ∉ (schedRun trace (schedTick inp st)).staged
    ∧ st.nextId ∉ (schedRun trace (schedTick inp st)).walkers := by
  have htick : schedTick inp st = destroyedPush st := by
    simp [schedTick, stagingStep, hop, hres, hsp, hct, hcap]
  have hfresh := schedRun_fresh trace (destroyedPush st) st.nextId
    (by simp [destroyedPush]) hf1 hf2
  rw [htick]
  refine ⟨rfl, by simp [destroyedPush], rfl, rfl, hfresh.2.1, hfresh.2.2⟩

/-- Witness for C6: the first staging attempt fails controller attachment
and the walker with id 0 is destroyed and stays untracked over a later
successful staging. -/
theorem controllerFailure_no_tracking_witness :
    (⟨true, true, true, false, fun _ => false, fun _ => false⟩
        : SchedInput).stagingOpportunity = true
    ∧ schedInit.walkers.length + schedInit.staged.length < MAX_CROSSERS
    ∧ schedInit.nextId
        ∉ (schedRun [⟨true, true, true, true, fun _ => false, fun _ => false⟩]
            (schedTick ⟨true, true, true, false, fun _ => false, fun _ => false⟩
              schedInit)).staged :=
  ⟨rfl, by decide,
   (controllerFailure_no_tracking
     ⟨true, true, true, false, fun _ => false, fun _ => false⟩ schedInit
     [⟨true, true, true, true, fun _ => false, fun _ => false⟩]
     rfl (by decide) rfl rfl rfl (by decide) (by decide)).2.2.2.2.1⟩

/-- C10 (refuting): the staged-plus-triggered cap is not cumulative.  With
`MAX_CROSSERS = 2`, two walkers are staged (combined count 2), both are then
dropped when their location queries raise, and a later staging opportunity
stages a third walker (id 2). -/
theorem cumulativeCap_counterexample :
    ((schedRun
        [⟨true, true, true, true, fun _ => false, fun _ => false⟩,
         ⟨true, true, true, true, fun _ => false, fun _ => false⟩]
        schedInit).walkers.length
      + (schedRun
          [⟨true, true, true, true, fun _ => false, fun _ => false⟩,
           ⟨true, true, true, true, fun _ => false, fun _ => false⟩]
          schedInit).staged.length = MAX_CROSSERS)
    ∧ 2 ∈ (schedRun
        [⟨true, true, true, true, fun _ => false, fun _ => false⟩,
         ⟨true, true, true, true, fun _ => false, fun _ => false⟩,
         ⟨false, true, true, true, fun _ => false, fun _ => true⟩,
         ⟨true, true, true, true, fun _ => false, fun _ => false⟩]
        schedInit).staged := by
  exact ⟨by decide, by decide⟩

/-- C10 (amended): triggered walkers are never removed from the triggered
list (it only grows), and once `MAX_CROSSERS` walkers have been *triggered*
no later tick ever spawns another walker — `nextId` stays fixed for the rest
of the run.  For staged-but-untriggered walkers the cap is only concurrent:
a staged walker dropped by a failing location query frees its slot. -/
theorem triggeredWalkers_cumulative_cap (trace : List SchedInput)
    (st : SchedState) :
    st.walkers <+: (schedRun trace st).walkers
    ∧ (MAX_CROSSERS ≤ st.walkers.length →
        (schedRun trace st).nextId = st.nextId) :=
  ⟨schedRun_walkers_mono trace st, schedRun_blocked trace st⟩

/-- Witness for C10's amended theorem: with two walkers already triggered, a
staging opportunity spawns nothing. -/
theorem triggeredWalkers_cumulative_cap_witness :
    MAX_CROSSERS ≤ ([5, 6] : List Nat).length
    ∧ (schedRun [⟨true, true, true, true, fun _ => false, fun _ => false⟩]
        ⟨[5, 6], [], [], 7⟩).nextId = (⟨[5, 6], [], [], 7⟩ : SchedState).nextId :=
  ⟨by decide,
   (triggeredWalkers_cumulative_cap
     [⟨true, true, true, true, fun _ => false, fun _ => false⟩]
     ⟨[5, 6], [], [], 7⟩).2 (by decide)⟩

end AutoNav
